import Mathlib

/-
Shallow embedding of the ALMReady Tauri shell's sidecar lifecycle
(src/src-tauri/src/lib.rs): the PORT: stdout handshake reader, the
TCP health-probe loop, the supervisor orchestration in `run`, and the
close-requested termination handler.  Strings from the child's stdout are
modelled as `List String` (the lines that `BufRead::lines().flatten()`
yields); TCP connection attempts are modelled by an oracle
`connect : Nat → Bool` giving the outcome of the i-th attempt.
-/

namespace ALMReady

/-- Rust `char::is_whitespace`: the Unicode White_Space property, spelled
out over code points (this is what `str::trim` uses). -/
def isWsChar (c : Char) : Bool :=
  decide ((9 ≤ c.toNat ∧ c.toNat ≤ 13) ∨ c.toNat = 32 ∨ c.toNat = 133 ∨
          c.toNat = 160 ∨ c.toNat = 5760 ∨ (8192 ≤ c.toNat ∧ c.toNat ≤ 8202) ∨
          c.toNat = 8232 ∨ c.toNat = 8233 ∨ c.toNat = 8239 ∨ c.toNat = 8287 ∨
          c.toNat = 12288)

/-- ASCII decimal digit, the only digits `u16::from_str` accepts in radix 10. -/
def isDigitChar (c : Char) : Bool :=
  decide (48 ≤ c.toNat ∧ c.toNat ≤ 57)

/-- Value of a list of ASCII decimal digits, most significant first. -/
def digitsVal (cs : List Char) : Nat :=
  cs.foldl (fun a c => a * 10 + (c.toNat - 48)) 0

/-- Rust `str::trim`: drop Unicode whitespace from both ends. -/
def rustTrim (cs : List Char) : List Char :=
  ((cs.dropWhile isWsChar).reverse.dropWhile isWsChar).reverse

/-- Optional leading plus sign accepted by Rust's integer `from_str`
(for unsigned types a leading minus sign is rejected as a non-digit). -/
def dropPlus (cs : List Char) : List Char :=
  match cs with
  | c :: rest => if c = '+' then rest else c :: rest
  | [] => []

/-- Rust `str::parse::<u16>` (`u16::from_str`): an optional leading plus
sign, then one or more ASCII decimal digits whose value fits in 16 bits;
anything else (empty, stray characters, overflow) is an error, modelled
as `none`. -/
def parseU16 (cs : List Char) : Option Nat :=
  if dropPlus cs = [] then none
  else if (dropPlus cs).all isDigitChar then
    if digitsVal (dropPlus cs) < 65536 then some (digitsVal (dropPlus cs))
    else none
  else none

/-- Rust `str::strip_prefix` on character lists: `some rest` when the
second list starts with the first, `none` otherwise. -/
def stripPre : List Char → List Char → Option (List Char)
  | [], s => some s
  | _ :: _, [] => none
  | p :: ps, c :: cs => if c = p then stripPre ps cs else none

/-- The stdout-reader loop of `spawn_sidecar`: scan lines in order; on the
first line whose `PORT:` prefix strips and whose trimmed remainder parses
as a `u16`, return that port at once; a `PORT:` line that fails to parse
is skipped like any other line; if the stream ends first, return the
sentinel 0. -/
def readPort : List String → Nat
  | [] => 0
  | line :: rest =>
    match stripPre "PORT:".data line.data with
    | some port_str =>
      match parseU16 (rustTrim port_str) with
      | some p => p
      | none => readPort rest
    | none => readPort rest

/-- Port announced by a single line: the composition of the prefix strip,
trim and parse steps applied to one line of stdout. -/
def portOfLine (line : String) : Option Nat :=
  match stripPre "PORT:".data line.data with
  | some port_str => parseU16 (rustTrim port_str)
  | none => none

/-- The loop body of `wait_for_backend`, with explicit attempt index `i`
and remaining-attempt fuel: `for _ in 0..60 { if connect ok {return true};
sleep }` returns `false` only once the budget is gone. -/
def waitFrom (connect : Nat → Bool) : Nat → Nat → Bool
  | _, 0 => false
  | i, fuel + 1 => if connect i then true else waitFrom connect (i + 1) fuel

/-- `wait_for_backend`: poll the port with at most 60 TCP connection
attempts (500 ms apart in the source; time is not modelled), reporting
readiness as a plain boolean. -/
def wait_for_backend (connect : Nat → Bool) : Bool :=
  waitFrom connect 0 60

/-- Attempt indices actually performed by the probe loop, paired with its
result, for stating temporal ordering properties. -/
def waitTraceFrom (connect : Nat → Bool) : Nat → Nat → List Nat × Bool
  | _, 0 => ([], false)
  | i, fuel + 1 =>
    if connect i then ([i], true)
    else ((waitTraceFrom connect (i + 1) fuel).1.cons i,
          (waitTraceFrom connect (i + 1) fuel).2)

/-- A child-process handle (`std::process::Child`), identified by pid. -/
structure Child where
  pid : Nat
deriving DecidableEq

/-- The atomic `take` on the shared `BackendProcess(Mutex<Option<Child>>)`
slot followed by kill-and-wait when a handle was present: returns the slot
left behind (always empty) and whether a kill (plus reap) was performed.
Both the fatal-failure paths in `run` and the CloseRequested handler go
through exactly this take. -/
def terminate (slot : Option Child) : Option Child × Bool :=
  match slot with
  | some _ => (none, true)
  | none => (none, false)

/-- Environment a supervisor run is deterministic in: the outcome of
`spawn_sidecar`'s launch (error string, or the child's stdout lines) and
the outcome of each TCP connection attempt. -/
structure Env where
  launch : Except String (List String)
  connect : Nat → Bool

/-- Observable effects of the supervisor's startup task in `run`:
whether a child handle was stored in the `BackendProcess` slot, whether
the child was killed and reaped on a fatal path, the `std::process::exit`
code if the process was terminated, and the port injected into the main
window if one was created. -/
structure SupTrace where
  handleStored : Bool
  killed : Bool
  reaped : Bool
  exitCode : Option Nat
  windowPort : Option Nat
deriving DecidableEq

/-- The async startup task in `run`: on launch error, log and fall back
(no handle, no exit, no window); otherwise store the handle, await the
port; sentinel 0 → kill, reap, exit(1); else health-probe; timeout →
kill, reap, exit(1); else create the window with the port injected. -/
def runSupervisor (env : Env) : SupTrace :=
  match env.launch with
  | .error _ =>
    { handleStored := false, killed := false, reaped := false,
      exitCode := none, windowPort := none }
  | .ok outLines =>
    if readPort outLines = 0 then
      { handleStored := true, killed := true, reaped := true,
        exitCode := some 1, windowPort := none }
    else if wait_for_backend env.connect then
      { handleStored := true, killed := false, reaped := false,
        exitCode := none, windowPort := some (readPort outLines) }
    else
      { handleStored := true, killed := true, reaped := true,
        exitCode := some 1, windowPort := none }

/-- Events of a supervisor run, for temporal-ordering claims. -/
inductive Ev where
  | launched
  | launchFailed
  | portDelivered (p : Nat)
  | probeAttempt (i : Nat)
  | killEv
  | reapEv
  | exitProc (code : Nat)
  | windowCreated (p : Nat)
deriving DecidableEq

/-- Ordered event trace of the startup task: the launch outcome, then the
one-shot port delivery, then either the fatal handshake path, or the
probe attempts followed by window creation or the fatal health path. -/
def supEvents (env : Env) : List Ev :=
  match env.launch with
  | .error _ => [Ev.launchFailed]
  | .ok outLines =>
    Ev.launched :: Ev.portDelivered (readPort outLines) ::
      (if readPort outLines = 0 then [Ev.killEv, Ev.reapEv, Ev.exitProc 1]
       else
         (waitTraceFrom env.connect 0 60).1.map Ev.probeAttempt ++
           (if (waitTraceFrom env.connect 0 60).2 then
              [Ev.windowCreated (readPort outLines)]
            else [Ev.killEv, Ev.reapEv, Ev.exitProc 1]))

/-- Concrete environment: child exits with no output (claim C3 witness). -/
def envSilent : Env := ⟨.ok [], fun _ => false⟩

/-- Concrete environment: child announces port 9 but nothing ever accepts
a connection (claim C5 witness). -/
def envDeaf : Env := ⟨.ok ["PORT:9"], fun _ => false⟩

/-- Concrete environment: the sidecar executable cannot be spawned
(claim C6 witness). -/
def envNoExe : Env := ⟨.error "spawn failed", fun _ => false⟩

/-- Concrete environment: child announces port 9 and the first connection
attempt succeeds (claim C8 witness). -/
def envQuick : Env := ⟨.ok ["PORT:9"], fun i => decide (i = 0)⟩

-- ── Helper lemmas ───────────────────────────────────────────────────────────

theorem stripPre_append (p r : List Char) : stripPre p (p ++ r) = some r := by
  induction p with
  | nil => rfl
  | cons a ps ih => simp [stripPre, ih]

theorem dropWhile_eq_self_of_not (q : Char → Bool) (l : List Char)
    (h : ∀ c ∈ l, q c = false) : l.dropWhile q = l := by
  cases l with
  | nil => rfl
  | cons a t => simp [List.dropWhile_cons, h a (by simp)]

theorem rustTrim_eq_self (cs : List Char) (h : ∀ c ∈ cs, isWsChar c = false) :
    rustTrim cs = cs := by
  unfold rustTrim
  rw [dropWhile_eq_self_of_not _ _ h]
  rw [dropWhile_eq_self_of_not _ _ (fun c hc => h c (List.mem_reverse.mp hc))]
  exact List.reverse_reverse cs

theorem not_ws_of_digit (c : Char) (h : isDigitChar c = true) :
    isWsChar c = false := by
  simp only [isDigitChar, decide_eq_true_eq] at h
  simp only [isWsChar, decide_eq_false_iff_not]
  omega

theorem dropPlus_eq_self (cs : List Char) (h : ∀ c ∈ cs, isDigitChar c = true) :
    dropPlus cs = cs := by
  cases cs with
  | nil => rfl
  | cons a t =>
    have ha : a ≠ '+' := by
      intro e
      have := h a (by simp)
      rw [e] at this
      simp [isDigitChar] at this
    simp [dropPlus, ha]

theorem parseU16_digits (cs : List Char) (hne : cs ≠ [])
    (hd : ∀ c ∈ cs, isDigitChar c = true) (hv : digitsVal cs < 65536) :
    parseU16 cs = some (digitsVal cs) := by
  unfold parseU16
  rw [dropPlus_eq_self cs hd]
  rw [if_neg hne]
  rw [if_pos (List.all_eq_true.mpr hd)]
  rw [if_pos hv]

theorem readPort_cons (line : String) (rest : List String) :
    readPort (line :: rest) = (portOfLine line).getD (readPort rest) := by
  cases h : stripPre "PORT:".data line.data with
  | none => simp [readPort, portOfLine, h]
  | some r =>
    cases h2 : parseU16 (rustTrim r) with
    | none => simp [readPort, portOfLine, h, h2]
    | some p => simp [readPort, portOfLine, h, h2]

theorem readPort_append_none (pre rest : List String)
    (h : ∀ x ∈ pre, portOfLine x = none) :
    readPort (pre ++ rest) = readPort rest := by
  induction pre with
  | nil => rfl
  | cons a t ih =>
    rw [List.cons_append, readPort_cons, h a (by simp)]
    exact ih (fun x hx => h x (by simp [hx]))

theorem waitFrom_true_iff (connect : Nat → Bool) :
    ∀ fuel i, waitFrom connect i fuel = true ↔
      ∃ j, i ≤ j ∧ j < i + fuel ∧ connect j = true := by
  intro fuel
  induction fuel with
  | zero =>
    intro i
    simp only [waitFrom]
    constructor
    · intro h; simp at h
    · rintro ⟨j, h1, h2, _⟩; omega
  | succ n ih =>
    intro i
    cases h : connect i with
    | true =>
      have ht : waitFrom connect i (n + 1) = true := by simp [waitFrom, h]
      rw [ht]
      constructor
      · intro _; exact ⟨i, le_refl i, by omega, h⟩
      · intro _; rfl
    | false =>
      have hf : waitFrom connect i (n + 1) = waitFrom connect (i + 1) n := by
        simp [waitFrom, h]
      rw [hf, ih (i + 1)]
      constructor
      · rintro ⟨j, h1, h2, h3⟩; exact ⟨j, by omega, by omega, h3⟩
      · rintro ⟨j, h1, h2, h3⟩
        rcases Nat.eq_or_lt_of_le h1 with he | hl
        · rw [← he] at h3; rw [h] at h3; simp at h3
        · exact ⟨j, by omega, by omega, h3⟩

-- ── Claim theorems ──────────────────────────────────────────────────────────

/-- C1: the reader returns the parsed port of the first line that starts
with `PORT:` and whose trimmed remainder parses as a u16; once found,
scanning stops (the result is independent of later lines); and every
decimal digit string s with value at most 65535 on a `PORT:{s}` line
yields exactly that value. -/
theorem C1_first_matching_line :
    (∀ (pre : List String) (line : String) (suf : List String) (p : Nat),
        (∀ x ∈ pre, portOfLine x = none) → portOfLine line = some p →
        readPort (pre ++ line :: suf) = p ∧
        readPort (pre ++ line :: suf) = readPort (pre ++ [line]))
    ∧ (∀ s : String, s.data ≠ [] → (∀ c ∈ s.data, isDigitChar c = true) →
        digitsVal s.data ≤ 65535 →
        readPort ["PORT:" ++ s] = digitsVal s.data) := by
  constructor
  · intro pre line suf p hpre hline
    have h1 : readPort (pre ++ line :: suf) = p := by
      rw [readPort_append_none pre _ hpre, readPort_cons, hline]; rfl
    have h2 : readPort (pre ++ [line]) = p := by
      rw [readPort_append_none pre _ hpre, readPort_cons, hline]; rfl
    exact ⟨h1, h1.trans h2.symm⟩
  · intro s hne hd hv
    have hdata : ("PORT:" ++ s).data = "PORT:".data ++ s.data := by
      cases s; rfl
    have hstrip : stripPre "PORT:".data ("PORT:" ++ s).data = some s.data := by
      rw [hdata]; exact stripPre_append _ _
    have htrim : rustTrim s.data = s.data :=
      rustTrim_eq_self _ (fun c hc => not_ws_of_digit c (hd c hc))
    have hpl : portOfLine ("PORT:" ++ s) = some (digitsVal s.data) := by
      unfold portOfLine
      rw [hstrip]
      show parseU16 (rustTrim s.data) = some (digitsVal s.data)
      rw [htrim]
      exact parseU16_digits s.data hne hd (by omega)
    rw [readPort_cons, hpl]
    rfl

/-- C1 witness: a noise line, then `PORT: 8080 ` with surrounding
whitespace, returns 8080 regardless of the later `PORT:9`; and the
digit string 65535 round-trips. -/
theorem C1_first_matching_line_witness :
    readPort ["noise", "PORT: 8080 ", "PORT:9"] = 8080 ∧
    readPort ["PORT:65535"] = 65535 :=
  ⟨(C1_first_matching_line.1 ["noise"] "PORT: 8080 " ["PORT:9"] 8080
      (by decide) (by decide)).1,
   C1_first_matching_line.2 "65535" (by decide) (by decide) (by decide)⟩

/-- C2 counterexample: the first `PORT:`-prefixed line carries digits that
overflow u16 (99999), yet the reader does not yield the sentinel 0 — the
loop keeps scanning and returns 8080 from the next line. -/
theorem C2_counterexample :
    readPort ["PORT:99999", "PORT:8080"] = 8080 ∧ (8080 : Nat) ≠ 0 :=
  ⟨by decide, by decide⟩

/-- C2 amended: the reader yields the sentinel 0 when no line both
matches the `PORT:` prefix and parses as a valid u16; a `PORT:` line
whose remainder fails to parse is skipped and scanning continues with the
later lines (one value per run is inherent in the reader being a
function). -/
theorem C2_amended_sentinel :
    (∀ outLines : List String, (∀ l ∈ outLines, portOfLine l = none) →
        readPort outLines = 0)
    ∧ (∀ (line : String) (rest : List String), portOfLine line = none →
        readPort (line :: rest) = readPort rest) := by
  constructor
  · intro outLines h
    have := readPort_append_none outLines [] h
    simpa using this
  · intro line rest h
    rw [readPort_cons, h]; rfl

/-- C2 witness: a stream whose only `PORT:` line overflows u16 yields 0,
and such a line is skipped in favour of the rest of the stream. -/
theorem C2_amended_sentinel_witness :
    readPort ["PORT:70000", "nonsense"] = 0 ∧
    readPort ["PORT:70000", "PORT:8080"] = readPort ["PORT:8080"] :=
  ⟨C2_amended_sentinel.1 ["PORT:70000", "nonsense"] (by decide),
   C2_amended_sentinel.2 "PORT:70000" ["PORT:8080"] (by decide)⟩

/-- C3: when the delivered port is the sentinel 0, the supervisor kills
the child, reaps it, exits the process with a non-zero status, and never
creates a window. -/
theorem C3_handshake_fatal (env : Env) (outLines : List String)
    (hl : env.launch = .ok outLines) (hp : readPort outLines = 0) :
    (runSupervisor env).killed = true ∧ (runSupervisor env).reaped = true ∧
    (∃ c, (runSupervisor env).exitCode = some c ∧ c ≠ 0) ∧
    (runSupervisor env).windowPort = none := by
  have hrun : runSupervisor env =
      { handleStored := true, killed := true, reaped := true,
        exitCode := some 1, windowPort := none } := by
    unfold runSupervisor
    rw [hl]
    simp [hp]
  rw [hrun]
  exact ⟨rfl, rfl, ⟨1, rfl, one_ne_zero⟩, rfl⟩

/-- C3 witness: a child that exits immediately with no output reaches the
fatal handshake path. -/
theorem C3_handshake_fatal_witness :
    (runSupervisor envSilent).killed = true ∧
    (runSupervisor envSilent).reaped = true ∧
    (∃ c, (runSupervisor envSilent).exitCode = some c ∧ c ≠ 0) ∧
    (runSupervisor envSilent).windowPort = none :=
  C3_handshake_fatal envSilent [] rfl rfl

/-- C4: the health probe returns true iff one of the 60 attempts
(indices 0–59, so success on the 60th attempt counts) succeeds, and
false iff all 60 fail; the timeout is the boolean false by the very
return type of `wait_for_backend`. -/
theorem C4_health_probe_budget (connect : Nat → Bool) :
    (wait_for_backend connect = true ↔ ∃ i, i < 60 ∧ connect i = true)
    ∧ (wait_for_backend connect = false ↔ ∀ i, i < 60 → connect i = false)
    ∧ wait_for_backend (fun i => decide (i = 59)) = true
    ∧ wait_for_backend (fun _ => false) = false := by
  have h := waitFrom_true_iff connect 60 0
  rw [wait_for_backend] at *
  have htrue : waitFrom connect 0 60 = true ↔ ∃ i, i < 60 ∧ connect i = true := by
    rw [h]
    constructor
    · rintro ⟨j, _, h2, h3⟩; exact ⟨j, by omega, h3⟩
    · rintro ⟨j, h1, h2⟩; exact ⟨j, by omega, by omega, h2⟩
  refine ⟨htrue, ?_, by decide, by decide⟩
  constructor
  · intro hf i hi
    cases hc : connect i with
    | false => rfl
    | true =>
      have : waitFrom connect 0 60 = true := htrue.mpr ⟨i, hi, hc⟩
      rw [hf] at this
      simp at this
  · intro hall
    cases hb : waitFrom connect 0 60 with
    | false => rfl
    | true =>
      rcases htrue.mp hb with ⟨j, h1, h2⟩
      rw [hall j h1] at h2
      simp at h2

/-- C5: when the health probe exhausts its budget on a valid announced
port, the supervisor kills the child, reaps it, exits non-zero, and the
window-creation step is never reached. -/
theorem C5_health_timeout_fatal (env : Env) (outLines : List String)
    (hl : env.launch = .ok outLines) (hp : readPort outLines ≠ 0)
    (hw : wait_for_backend env.connect = false) :
    (runSupervisor env).killed = true ∧ (runSupervisor env).reaped = true ∧
    (∃ c, (runSupervisor env).exitCode = some c ∧ c ≠ 0) ∧
    (runSupervisor env).windowPort = none := by
  have hrun : runSupervisor env =
      { handleStored := true, killed := true, reaped := true,
        exitCode := some 1, windowPort := none } := by
    unfold runSupervisor
    rw [hl]
    simp [hp, hw]
  rw [hrun]
  exact ⟨rfl, rfl, ⟨1, rfl, one_ne_zero⟩, rfl⟩

/-- C5 witness: the child announces port 9 and no connection attempt ever
succeeds, so the fatal health-timeout path is taken. -/
theorem C5_health_timeout_fatal_witness :
    (runSupervisor envDeaf).killed = true ∧
    (runSupervisor envDeaf).reaped = true ∧
    (∃ c, (runSupervisor envDeaf).exitCode = some c ∧ c ≠ 0) ∧
    (runSupervisor envDeaf).windowPort = none :=
  C5_health_timeout_fatal envDeaf ["PORT:9"] rfl (by decide) (by decide)

/-- C6: a failed launch takes the non-fatal fallback path: no handle is
stored, no kill, no process exit, no window; the only observable event is
the logged launch failure. -/
theorem C6_launch_fallback (env : Env) (e : String)
    (hl : env.launch = .error e) :
    runSupervisor env =
      { handleStored := false, killed := false, reaped := false,
        exitCode := none, windowPort := none } ∧
    supEvents env = [Ev.launchFailed] := by
  constructor
  · unfold runSupervisor; rw [hl]
  · unfold supEvents; rw [hl]

/-- C6 witness: an absent sidecar executable reaches the fallback path. -/
theorem C6_launch_fallback_witness :
    runSupervisor envNoExe =
      { handleStored := false, killed := false, reaped := false,
        exitCode := none, windowPort := none } ∧
    supEvents envNoExe = [Ev.launchFailed] :=
  C6_launch_fallback envNoExe "spawn failed" rfl

/-- C7: the termination take is safe on an empty slot (no kill), always
leaves the slot empty, never kills on a second invocation, and two
sequential invocations perform at most one kill in total — the same
atomic take serialises the fatal paths against the close handler. -/
theorem C7_terminate_idempotent :
    terminate (none : Option Child) = (none, false)
    ∧ (∀ slot : Option Child, (terminate slot).1 = none)
    ∧ (∀ slot : Option Child, (terminate (terminate slot).1).2 = false)
    ∧ (∀ slot : Option Child,
        (terminate slot).2.toNat + (terminate (terminate slot).1).2.toNat ≤ 1) := by
  refine ⟨rfl, ?_, ?_, ?_⟩ <;> intro slot <;> cases slot <;> simp [terminate]

/-- C8: every probe attempt in an execution trace is strictly preceded by
the one-shot delivery of a non-zero port. -/
theorem C8_probe_after_port (env : Env) (i : Nat)
    (h : Ev.probeAttempt i ∈ supEvents env) :
    ∃ p, p ≠ 0 ∧ ∃ l1 l2, supEvents env = l1 ++ Ev.portDelivered p :: l2 ∧
      Ev.probeAttempt i ∈ l2 := by
  cases henv : env.launch with
  | error e =>
    simp only [supEvents, henv] at h
    simp at h
  | ok outLines =>
    by_cases hp : readPort outLines = 0
    · simp only [supEvents, henv, if_pos hp] at h
      simp at h
    · refine ⟨readPort outLines, hp, [Ev.launched],
        (waitTraceFrom env.connect 0 60).1.map Ev.probeAttempt ++
          (if (waitTraceFrom env.connect 0 60).2 then
             [Ev.windowCreated (readPort outLines)]
           else [Ev.killEv, Ev.reapEv, Ev.exitProc 1]), ?_, ?_⟩
      · simp only [supEvents, henv, if_neg hp]
        rfl
      · simp only [supEvents, henv, if_neg hp, List.mem_cons] at h
        rcases h with h | h | h
        · exact absurd h (by simp)
        · exact absurd h (by simp)
        · exact h

/-- C8 witness: with port 9 announced and the first attempt succeeding,
probe attempt 0 appears in the trace and is preceded by the delivery of
port 9. -/
theorem C8_probe_after_port_witness :
    ∃ p, p ≠ 0 ∧ ∃ l1 l2, supEvents envQuick = l1 ++ Ev.portDelivered p :: l2 ∧
      Ev.probeAttempt 0 ∈ l2 :=
  C8_probe_after_port envQuick 0 (by decide)

/-- C9: a child whose first matching line is `PORT:0` parses successfully
to 0, which is indistinguishable from the absence sentinel: the reader
delivers 0 and the supervisor takes the fatal handshake path (kill, reap,
exit 1, no window). -/
theorem C9_port_zero_fatal (suf : List String) (connect : Nat → Bool) :
    portOfLine "PORT:0" = some 0 ∧
    readPort ("PORT:0" :: suf) = 0 ∧
    runSupervisor ⟨.ok ("PORT:0" :: suf), connect⟩ =
      { handleStored := true, killed := true, reaped := true,
        exitCode := some 1, windowPort := none } := by
  have h0 : portOfLine "PORT:0" = some 0 := by decide
  have h1 : readPort ("PORT:0" :: suf) = 0 := by
    rw [readPort_cons, h0]; rfl
  refine ⟨h0, h1, ?_⟩
  unfold runSupervisor
  simp [h1]

/-- C10: the u16 parser behind the handshake accepts a leading plus sign,
so `PORT:+8080` — a line outside the documented digits-only format, as
the plus sign is not a digit — announces port 8080. -/
theorem C10_plus_sign_accepted :
    portOfLine "PORT:+8080" = some 8080 ∧
    readPort ["PORT:+8080"] = 8080 ∧
    isDigitChar '+' = false :=
  ⟨by decide, by decide, by decide⟩

end ALMReady
